import Mathlib

/-!
Verification of the aiOS agent repository (os_ai_agent.py, web_agent.py,
web_server.py).

The development shallowly embeds the Python code: pure string manipulation
becomes Lean functions on `String`/`List Char`; calls into the operating
system (subprocess spawning, file writes, the model API) become explicit
oracle parameters, so that every executor is a total function from its
inputs and oracles to the structured result dictionary the Python code
builds.  Machine integers in the source are plain Python `int`s, embedded
as `Int`/`Nat`.
-/

namespace AiOS

/-! ### Python string primitives

Python's `\s` / `str.strip()` whitespace class, restricted to the ASCII
whitespace characters (the only ones the agent's fixed tag vocabulary and
the claims exercise). -/

def pyIsSpace (c : Char) : Bool :=
  c = ' ' || c = '\t' || c = '\n' || c = '\r' || c = '\x0b' || c = '\x0c'

/-- Python `str.strip()` on a character list. -/
def pyStripL (l : List Char) : List Char :=
  ((l.dropWhile pyIsSpace).reverse.dropWhile pyIsSpace).reverse

/-- Python `str.strip()`. -/
def pyStrip (s : String) : String :=
  ⟨pyStripL s.toList⟩

/-- `strStarts pat s`: `s` starts with the literal `pat` (Python
`str.startswith`). -/
def strStarts : List Char → List Char → Bool
  | [], _ => true
  | _ :: _, [] => false
  | p :: ps, c :: cs => p = c && strStarts ps cs

/-- `strHasSub pat s`: `pat` occurs as a contiguous substring of `s`
(Python `pat in s`).  The empty pattern occurs in every string, as in
Python. -/
def strHasSub (pat : List Char) : List Char → Bool
  | [] => pat.isEmpty
  | c :: cs => strStarts pat (c :: cs) || strHasSub pat cs

/-- Python `pat in s` on `String`. -/
def hasSubstr (pat s : String) : Bool :=
  strHasSub pat.toList s.toList

/-- Python `str.lower()` (ASCII case folding, which covers the agent's
fixed patterns). -/
def pyLowerL (l : List Char) : List Char :=
  l.map Char.toLower

/-! ### The subprocess oracle

`subprocess.run(command, shell=True, capture_output=True, text=True,
timeout=120)` either completes with captured streams and a return code,
raises `subprocess.TimeoutExpired`, or raises some other exception whose
text is `msg`. -/

structure ShellRun where
  stdout : String
  stderr : String
  returncode : Int
deriving DecidableEq, Repr

inductive ShellOutcome where
  | completed (r : ShellRun)
  | timedOut
  | raised (msg : String)
deriving DecidableEq, Repr

/-- The host shell, as an oracle from command text to outcome. -/
abbrev Shell := String → ShellOutcome

/-- The result dictionary built by `execute_command` in both agents:
`{"success": ..., "output": ..., "error": ..., "return_code": ...}`. -/
structure ExecResult where
  success : Bool
  output : String
  error : String
  return_code : Int
deriving DecidableEq, Repr

/-- Shared shell-running body of both `execute_command` implementations
(the `try: subprocess.run(...)` block with its two `except` arms).  The
`Bool` component records that `subprocess.run` was invoked. -/
def runShell (shell : Shell) (command : String) : ExecResult × Bool :=
  match shell command with
  | .completed r =>
      ({ success := r.returncode = 0, output := r.stdout, error := r.stderr,
         return_code := r.returncode }, true)
  | .timedOut =>
      ({ success := false, error := "Command timed out after 120 seconds",
         output := "", return_code := -1 }, true)
  | .raised msg =>
      ({ success := false, error := msg, output := "", return_code := -1 }, true)

namespace OsAi

/-- The fixed denylist in `os_ai_agent.OSAgent.execute_command`
(`dangerous_patterns`). -/
def dangerous_patterns : List String :=
  ["rm -rf /", "dd if=", "mkfs", "fdisk /dev/", "parted /dev/",
   "format", "del /f", "> /dev/", "chmod 777 /"]

/-- `any(pattern in command.lower() for pattern in dangerous_patterns)`. -/
def isDangerousCmd (command : String) : Bool :=
  dangerous_patterns.any fun p => strHasSub p.toList (pyLowerL command.toList)

/-- `os_ai_agent.OSAgent.execute_command`: the denylist gate followed by the
shell call.  The `Bool` component records whether a subprocess was
spawned. -/
def execute_command (shell : Shell) (command : String) : ExecResult × Bool :=
  if isDangerousCmd command then
    ({ success := false, error := "Dangerous command blocked: " ++ command,
       output := "", return_code := -1 }, false)
  else
    runShell shell command

end OsAi

namespace WebAgent

/-- `web_agent.OSAgent.execute_command`: no denylist gate; the command text
goes straight to `subprocess.run`. -/
def execute_command (shell : Shell) (command : String) : ExecResult × Bool :=
  runShell shell command

end WebAgent

/-! ### The inline-tag decoder (`os_ai_agent.OSAgent.extract_commands_and_tags`)

The four patterns the decoder uses are fixed regular expressions compiled
with `re.DOTALL | re.IGNORECASE`.  Each is embedded as a matcher that
attempts the pattern at the head of a character list and, on success,
returns the captured payload together with the rest of the text after the
match.  Lazy `(.*?)` groups take the earliest possible closing literal;
`\s+` takes the maximal whitespace run (faithful because every following
literal starts with a non-whitespace character, so regex backtracking into
the run can never succeed); the `(true|false)` alternation is decided by
the first character, so no backtracking across it is possible either. -/

/-- Consume a case-insensitive literal, returning the rest. -/
def dropLitCI : List Char → List Char → Option (List Char)
  | [], s => some s
  | _ :: _, [] => none
  | p :: ps, c :: cs => if p.toLower = c.toLower then dropLitCI ps cs else none

/-- Consume `\s+` maximally. -/
def dropSpaces1 : List Char → Option (List Char)
  | [] => none
  | c :: cs => if pyIsSpace c then some (cs.dropWhile pyIsSpace) else none

/-- Lazy `(.*?)` followed by a closing literal (case-insensitive): split at
the earliest occurrence of `close`, returning the text before it and the
rest after it. -/
def splitAtLitCI (close : List Char) : List Char → Option (List Char × List Char)
  | [] =>
    match dropLitCI close [] with
    | some rest => some ([], rest)
    | none => none
  | c :: cs =>
    match dropLitCI close (c :: cs) with
    | some rest => some ([], rest)
    | none =>
      match splitAtLitCI close cs with
      | some (pre, rest) => some (c :: pre, rest)
      | none => none

/-- `<COMMAND\s+return_output="(true|false)">(.*?)</COMMAND>` at the head
of the text. -/
def matchParamCmd (s : List Char) : Option ((Bool × List Char) × List Char) :=
  match dropLitCI "<COMMAND".toList s with
  | none => none
  | some s1 =>
  match dropSpaces1 s1 with
  | none => none
  | some s2 =>
  match dropLitCI "return_output=\"".toList s2 with
  | none => none
  | some s3 =>
  match
    (match dropLitCI "true".toList s3 with
     | some s4 => some (true, s4)
     | none =>
       match dropLitCI "false".toList s3 with
       | some s4 => some (false, s4)
       | none => none) with
  | none => none
  | some (ro, s4) =>
  match dropLitCI "\">".toList s4 with
  | none => none
  | some s5 =>
  match splitAtLitCI "</COMMAND>".toList s5 with
  | none => none
  | some (content, rest) => some ((ro, content), rest)

/-- Legacy `<COMMAND>(.*?)</COMMAND>` at the head of the text. -/
def matchLegacyCmd (s : List Char) : Option (List Char × List Char) :=
  match dropLitCI "<COMMAND>".toList s with
  | none => none
  | some s1 => splitAtLitCI "</COMMAND>".toList s1

/-- `<WRITEFILE\s+filename="([^"]+)">(.*?)</WRITEFILE>` at the head of the
text.  The greedy `([^"]+)` group runs to the next quote; a shorter match
would place the `"` literal on a non-quote character, so maximal munch is
faithful here as well. -/
def matchWritefile (s : List Char) :
    Option ((List Char × List Char) × List Char) :=
  match dropLitCI "<WRITEFILE".toList s with
  | none => none
  | some s1 =>
  match dropSpaces1 s1 with
  | none => none
  | some s2 =>
  match dropLitCI "filename=\"".toList s2 with
  | none => none
  | some s3 =>
  let fname := s3.takeWhile (fun c => c ≠ '"')
  if fname.isEmpty then none
  else
    match s3.dropWhile (fun c => c ≠ '"') with
    | '"' :: '>' :: s5 =>
      match splitAtLitCI "</WRITEFILE>".toList s5 with
      | none => none
      | some (content, rest) => some ((fname, content), rest)
    | _ => none

/-- `<DONE>(.*?)</DONE>` at the head of the text. -/
def matchDone (s : List Char) : Option (List Char × List Char) :=
  match dropLitCI "<DONE>".toList s with
  | none => none
  | some s1 => splitAtLitCI "</DONE>".toList s1

/-- All matches of `m` over every start position of the text, as
`(start, end, payload)` triples with strictly ascending starts. -/
def allMatches (m : List Char → Option (γ × List Char)) :
    ℕ → List Char → List (ℕ × ℕ × γ)
  | _, [] => []
  | pos, c :: cs =>
    let rest := allMatches m (pos + 1) cs
    match m (c :: cs) with
    | some (d, after) =>
        (pos, pos + ((c :: cs).length - after.length), d) :: rest
    | none => rest

/-- `re.finditer` keeps the leftmost matches and resumes scanning at each
match end (matches never overlap). -/
def selectMatches : ℕ → List (ℕ × ℕ × γ) → List (ℕ × ℕ × γ)
  | _, [] => []
  | lo, (s, e, d) :: rest =>
    if lo ≤ s then (s, e, d) :: selectMatches e rest
    else selectMatches lo rest

/-- `re.finditer(pattern, text)` for one of the decoder's patterns. -/
def pyFinditer (m : List Char → Option (γ × List Char)) (text : List Char) :
    List (ℕ × ℕ × γ) :=
  selectMatches 0 (allMatches m 0 text)

/-- One decoded tag: the `(position, kind, data)` triples the Python code
keeps in `all_tags`. -/
inductive TagData where
  | command (return_output : Bool) (cmd : String)
  | writefile (filename : String) (content : String)
deriving DecidableEq, Repr

structure Tag where
  pos : ℕ
  data : TagData
deriving DecidableEq, Repr

/-- The proximity/substring heuristic that guards legacy command capture:
`any(tag[1] == 'command' and cmd in tag[2][1] for tag in all_tags
if tag[0] <= match.start() <= tag[0] + 100)`. -/
def alreadyCaptured (acc : List Tag) (start : ℕ) (cmd : String) : Bool :=
  acc.any fun t =>
    decide (t.pos ≤ start) && decide (start ≤ t.pos + 100) &&
    (match t.data with
     | .command _ c => hasSubstr cmd c
     | _ => false)

/-- The parameterized-command pass: keep matches whose stripped command is
nonempty. -/
def paramTags (ms : List (ℕ × ℕ × Bool × List Char)) : List Tag :=
  ms.filterMap fun m =>
    match m with
    | (s, _, ro, raw) =>
      let cmd := pyStrip ⟨raw⟩
      if cmd.isEmpty then none else some ⟨s, .command ro cmd⟩

/-- The legacy-command pass: append each nonempty legacy command not
suppressed by the `alreadyCaptured` heuristic (the accumulator is the
growing `all_tags` list, exactly as in the Python loop). -/
def addLegacyTags (acc : List Tag) : List (ℕ × ℕ × List Char) → List Tag
  | [] => acc
  | (s, _, raw) :: rest =>
    if (pyStrip ⟨raw⟩).isEmpty then addLegacyTags acc rest
    else if alreadyCaptured acc s (pyStrip ⟨raw⟩) then addLegacyTags acc rest
    else addLegacyTags (acc ++ [⟨s, .command true (pyStrip ⟨raw⟩)⟩]) rest

/-- The write-file pass: keep matches with a nonempty stripped filename. -/
def writefileTags (ms : List (ℕ × ℕ × List Char × List Char)) : List Tag :=
  ms.filterMap fun m =>
    match m with
    | (s, _, fn, content) =>
      let fname := pyStrip ⟨fn⟩
      if fname.isEmpty then none
      else some ⟨s, .writefile fname (pyStrip ⟨content⟩)⟩

/-- `all_tags.sort(key=lambda x: x[0])` compares positions. -/
def tagLE (a b : Tag) : Prop := a.pos ≤ b.pos

instance : DecidableRel tagLE := fun a b => Nat.decLe a.pos b.pos

instance : IsTotal Tag tagLE := ⟨fun a b => Nat.le_total a.pos b.pos⟩

instance : IsTrans Tag tagLE := ⟨fun _ _ _ h h' => Nat.le_trans h h'⟩

/-- The dictionary returned by `extract_commands_and_tags`. -/
structure ExtractResult where
  commands_with_output : List (Bool × String)
  writefiles : List (String × String)
  done_messages : List String
  is_done : Bool
  ordered_tags : List Tag
deriving DecidableEq, Repr

/-- `os_ai_agent.OSAgent.extract_commands_and_tags`. -/
def extract_commands_and_tags (text : String) : ExtractResult :=
  let cl := text.toList
  let pMs := pyFinditer matchParamCmd cl
  let lMs := pyFinditer matchLegacyCmd cl
  let wMs := pyFinditer matchWritefile cl
  let dMs := pyFinditer matchDone cl
  let step3 := addLegacyTags (paramTags pMs) lMs ++ writefileTags wMs
  let sorted := List.insertionSort tagLE step3
  { ordered_tags := sorted
    commands_with_output := sorted.filterMap fun t =>
      match t.data with
      | .command ro c => some (ro, c)
      | _ => none
    writefiles := sorted.filterMap fun t =>
      match t.data with
      | .writefile f c => some (f, c)
      | _ => none
    done_messages := dMs.filterMap fun m =>
      let msg := pyStrip ⟨m.2.2⟩
      if msg.isEmpty then none else some msg
    is_done := !dMs.isEmpty }

/-! ### One orchestration turn (`process_response_with_iteration`)

`os_ai_agent.OSAgent.process_response_with_iteration` and the
`web_server.WebOSAgent` override share the same control flow and the same
two prompt strings; they differ only in how progress is displayed (print
versus socket emission), which is outside the model.  File writes go
through a filesystem oracle mapping `(filename, cleaned content)` to
success or failure (an exception inside the `try`).  The shell oracle is
deterministic, matching the fact that the code calls `execute_command`
and then `execute_with_feedback` on the same command text. -/

abbrev FileSys := String → String → Bool

/-- `strEnds pat l`: `l` ends with the literal `pat`. -/
def strEnds (pat l : List Char) : Bool :=
  strStarts pat.reverse l.reverse

/-- The markdown-fence stripping applied to WRITEFILE content before the
file is written. -/
def cleanContent (content : String) : String :=
  let c1 := pyStripL content.toList
  let c2 := if strStarts "```python".toList c1 then c1.drop 9 else c1
  let c3 := if strStarts "```".toList c2 then c2.drop 3 else c2
  let c4 := if strEnds "```".toList c3 then c3.take (c3.length - 3) else c3
  ⟨pyStripL c4⟩

/-- `os_ai_agent.OSAgent.execute_with_feedback`: run the command and format
its result for the model. -/
def execute_with_feedback (shell : Shell) (command : String) : String :=
  let result := (OsAi.execute_command shell command).1
  let parts1 := ["Command: " ++ command]
  let parts2 :=
    if result.success then
      if !(pyStrip result.output).isEmpty then
        parts1 ++ ["Output:\n" ++ result.output]
      else
        parts1 ++ ["Command completed successfully (no output)"]
    else
      (parts1 ++ ["Error: " ++ result.error]) ++
        (if !result.output.isEmpty then
          ["Additional output: " ++ result.output] else [])
  String.intercalate "\n" (parts2 ++ ["Return code: " ++ toString result.return_code])

/-- Executing one ordered tag: the success flag feeding
`execution_successful`, and the feedback strings the tag contributes
(commands with `return_output=true` contribute one formatted result;
write-files contribute none). -/
def runTag (shell : Shell) (fs : FileSys) (t : Tag) : Bool × List String :=
  match t.data with
  | .command ro cmd =>
    let result := (OsAi.execute_command shell cmd).1
    (result.success, if ro then [execute_with_feedback shell cmd] else [])
  | .writefile fname content =>
    (fs fname (cleanContent content), [])

/-- What the loop does after executing a turn: stop, or send one more
prompt to the model. -/
inductive Continuation where
  | stop
  | query (prompt : String)
deriving DecidableEq, Repr

/-- The results-feedback prompt (step 3 of the loop). -/
def feedback_results_prompt (feedbacks : List String) : String :=
  "Here are the results of the commands you requested:\n\n" ++
  String.intercalate "\n\n---\n\n" feedbacks ++
  "\n\nPlease continue with your task. Use <COMMAND return_output=\"true\">cmd</COMMAND> " ++
  "for commands you need output from, <COMMAND return_output=\"false\">cmd</COMMAND> " ++
  "for commands without feedback, <WRITEFILE filename=\"path\">content</WRITEFILE> " ++
  "for files, or <DONE>message</DONE> when finished."

/-- The neutral nudge prompt (step 4 of the loop). -/
def operations_completed_prompt : String :=
  "Operations completed successfully. Please continue with your task or use <DONE>message</DONE> when finished."

/-- The feedback strings a turn collects, in tag order. -/
def turnFeedbacks (shell : Shell) (fs : FileSys) (tags : ExtractResult) :
    List String :=
  ((tags.ordered_tags.map (runTag shell fs)).map (·.2)).flatten

structure TurnOutcome where
  execution_successful : Bool
  feedbacks : List String
  continuation : Continuation
deriving DecidableEq, Repr

/-- Steps 1–4 of `process_response_with_iteration`: execute every ordered
tag, collect feedback from `return_output=true` commands, then decide:
DONE present → return (no further model query); otherwise feedback
collected → send the results prompt; otherwise tags executed → send the
neutral prompt; otherwise return. -/
def processTurn (shell : Shell) (fs : FileSys) (tags : ExtractResult) :
    TurnOutcome :=
  let execd := tags.ordered_tags.map (runTag shell fs)
  let feedbacks := (execd.map (·.2)).flatten
  { execution_successful := execd.all (·.1)
    feedbacks := feedbacks
    continuation :=
      if tags.is_done then .stop
      else if !feedbacks.isEmpty then .query (feedback_results_prompt feedbacks)
      else if !tags.ordered_tags.isEmpty then .query operations_completed_prompt
      else .stop }

/-! ### Conversation state -/

/-- One conversation message (every message dictionary the agents store
carries a `role` and a string `content`; assistant messages with tool
calls store `content: ""`). -/
structure Message where
  role : String
  content : String
deriving DecidableEq, Repr

/-! ### The context window manager (`web_agent.OSAgent.summarize_context`)

The summarization request to the model is an oracle from the summary
prompt to `some summary` (HTTP 200) or `none` (non-200 status or a raised
exception); in both failure cases the Python function leaves
`conversation_history` untouched and returns `None`. -/

/-- The fixed template around the flattened middle conversation. -/
def summary_prompt (conversation_text : String) : String :=
  "Summarize this conversation concisely, focusing on:\n" ++
  "1. What tasks were completed\n" ++
  "2. Any important system changes made\n" ++
  "3. Current state of the system\n" ++
  "4. Any errors encountered and how they were resolved\n\n" ++
  "Conversation to summarize:\n" ++ conversation_text ++
  "\n\nProvide a brief summary (2-3 sentences):"

/-- `web_agent.OSAgent.summarize_context`: returns the compressed history,
or `none` when nothing changed (history too short, or the summarization
query failed).  In the source, `recent` is `h[-4:]` and `to_summarize` is
`h[1:-4]`; they are inlined here. -/
def summarize_context (llm : String → Option String) (h : List Message) :
    Option (List Message) :=
  if h.length < 6 then none
  else
    match h with
    | [] => none
    | first :: _ =>
      if ((h.drop 1).take (h.length - 5)).isEmpty then none
      else
        match llm (summary_prompt (String.intercalate "\n"
            (((h.drop 1).take (h.length - 5)).map fun m =>
              m.role ++ ": " ++ m.content))) with
        | some summary =>
          some (first ::
            ⟨"system", "[Previous conversation summary: " ++ summary ++ "]"⟩ ::
            h.drop (h.length - 4))
        | none => none

/-! ### CLI conversation-history bound (`os_ai_agent.OSAgent.query_llm`) -/

/-- The history update performed by `os_ai_agent.OSAgent.query_llm`: on an
HTTP 200 response (`outcome = some ai_response`) the user prompt and the
assistant reply are appended and the history is truncated to its last 20
entries; on any error outcome the history is left unchanged. -/
def query_llm_history (history : List Message) (prompt : String)
    (outcome : Option String) : List Message :=
  match outcome with
  | some ai_response =>
    let h := history ++ [⟨"user", prompt⟩, ⟨"assistant", ai_response⟩]
    if h.length > 20 then h.drop (h.length - 20) else h
  | none => history

/-- `os_ai_agent.OSAgent.clear_conversation`. -/
def clear_conversation : List Message := []

/-! ### Python `str.count` and `str.replace` -/

/-- Greedy scan for `str.count` with a nonempty needle `sh :: st`:
leftmost non-overlapping occurrences, resuming after each match.  The
`fuel` argument (always instantiated with the length of the scanned list,
which bounds the number of steps) makes the recursion structural, so the
function evaluates inside the kernel. -/
def countScan (sh : Char) (st : List Char) : ℕ → List Char → ℕ
  | _, [] => 0
  | 0, _ :: _ => 0
  | fuel + 1, c :: cs =>
    if strStarts (sh :: st) (c :: cs) then
      1 + countScan sh st fuel (cs.drop st.length)
    else
      countScan sh st fuel cs

/-- Python `str.count` (non-overlapping occurrences, scanning left to
right; the empty needle is counted `len + 1` times, as in Python). -/
def pyCount (c s : String) : ℕ :=
  match s.toList with
  | [] => c.length + 1
  | sh :: st => countScan sh st c.toList.length c.toList

/-- Greedy scan for `str.replace` with a nonempty needle, fueled like
`countScan`. -/
def replaceScan (sh : Char) (st : List Char) (r : List Char) :
    ℕ → List Char → List Char
  | _, [] => []
  | 0, l => l
  | fuel + 1, c :: cs =>
    if strStarts (sh :: st) (c :: cs) then
      r ++ replaceScan sh st r fuel (cs.drop st.length)
    else
      c :: replaceScan sh st r fuel cs

/-- Python `str.replace` (every leftmost non-overlapping occurrence is
replaced; an empty needle inserts the replacement around every character,
as in Python). -/
def pyReplace (c s r : String) : String :=
  match s.toList with
  | [] => ⟨r.toList ++ (c.toList.map fun ch => ch :: r.toList).flatten⟩
  | sh :: st => ⟨replaceScan sh st r.toList c.toList.length c.toList⟩

/-! ### `edit_file` operation `replace` (`web_agent.OSAgent.execute_tool`) -/

/-- The result dictionary of the `edit_file` `replace` branch (the
kind-specific `filename`/`operation`/`search`/`replace` echo fields are
omitted; `replacements` carries the reported count). -/
structure ReplaceResult where
  success : Bool
  output : String := ""
  error : String := ""
  replacements : ℕ := 0
  return_code : Int
deriving DecidableEq, Repr

/-- `edit_file` with `operation="replace"` on an existing file whose
current content is `content`: count occurrences, fail on zero, otherwise
replace all and write back.  Returns the result dictionary and the file
content after the call. -/
def edit_replace (filename content search repl : String) :
    ReplaceResult × String :=
  let count := pyCount content search
  if count = 0 then
    ({ success := false,
       error := "Search text not found in " ++ filename,
       output := "No matches found", return_code := 1 }, content)
  else
    let new_content := pyReplace content search repl
    ({ success := true,
       output := "Replaced " ++ toString count ++ " occurrence(s) in " ++ filename,
       replacements := count, return_code := 0 }, new_content)

/-! ### `edit_file` operation `insert` -/

/-- Python `readlines()` on text-mode content: split after every newline,
keeping the terminator, with a final unterminated piece kept as well. -/
def readlinesAux (acc : List Char) : List Char → List String
  | [] => if acc.isEmpty then [] else [⟨acc.reverse⟩]
  | c :: cs =>
    if c = '\n' then ⟨(c :: acc).reverse⟩ :: readlinesAux [] cs
    else readlinesAux (c :: acc) cs

def pyReadlines (s : String) : List String := readlinesAux [] s.toList

/-- The result dictionary of the `edit_file` `insert` branch. -/
structure InsertResult where
  success : Bool
  output : String
  line_number : Int
  return_code : Int
deriving DecidableEq, Repr

/-- The line list `insert` starts from: `readlines()` of the existing
file, or `[]` when the read raises `FileNotFoundError`. -/
def fileLines (fileContent : Option String) : List String :=
  match fileContent with
  | none => []
  | some fc => pyReadlines fc

/-- Ensure the inserted content ends with a newline when nonempty. -/
def ensureNewline (content : String) : String :=
  if !content.isEmpty && content.toList.getLast? != some '\n'
  then content ++ "\n" else content

/-- `edit_file` with `operation="insert"`: `fileContent = none` models a
`FileNotFoundError` on the initial read (handled in the source:
`lines = []`).  The 1-indexed line number is clamped with
`insert_idx = max(0, min(line_number - 1, len(lines)))`, the content gets
a trailing newline when it lacks one, and the lines are written back.
Returns the result dictionary and the new file content. -/
def edit_insert (filename : String) (fileContent : Option String)
    (content : String) (line_number : Int) : InsertResult × String :=
  let lines := fileLines fileContent
  let insert_idx : ℕ := (max 0 (min (line_number - 1) (lines.length : Int))).toNat
  let content' := ensureNewline content
  let newLines := lines.take insert_idx ++ content' :: lines.drop insert_idx
  ({ success := true,
     output := "Content inserted at line " ++ toString line_number ++
       " in " ++ filename,
     line_number := line_number, return_code := 0 },
   String.join newLines)

/-! ### `read_file` (`web_agent.OSAgent.execute_tool`) -/

/-- The result dictionary of the `read_file` tool.  The ranged branch
fills `start_line`, `end_line` (the clamped stop index) and `lines_read`;
the whole-file branch fills `size` and `lines`. -/
structure ReadResult where
  success : Bool
  output : String
  start_line : Option Int := none
  end_line : Option Int := none
  lines_read : ℕ := 0
  size : ℕ := 0
  lines : ℕ := 0
  return_code : Int
deriving DecidableEq, Repr

/-- Python list slicing `l[a:b]` with a non-negative start and an optional
(possibly negative) stop. -/
def pySlice (l : List String) (a : ℕ) (b : Option Int) : List String :=
  match b with
  | none => l.drop a
  | some e =>
    let eff : Int := if e < 0 then (l.length : Int) + e else e
    (l.take eff.toNat).drop a

/-- `read_file` on an existing file whose content is `content`, with an
optional 1-indexed line range: `start_idx = max(0, start_line - 1)`,
`end_idx = min(len(lines), end_line)` when given.  The whole-file branch
returns the entire content unconditionally (the `lines` count field uses
the newline-terminated line count, which agrees with `splitlines()` on
text-mode content). -/
def read_file (content : String) (start_line end_line : Option Int) :
    ReadResult :=
  match start_line with
  | none =>
    { success := true, output := content, size := content.length,
      lines := (pyReadlines content).length, return_code := 0 }
  | some sl =>
    let lines := pyReadlines content
    let start_idx : ℕ := (max 0 (sl - 1)).toNat
    let end_idx : Option Int := match end_line with
      | none => none
      | some el => some (min (lines.length : Int) el)
    let selected := pySlice lines start_idx end_idx
    { success := true, output := String.join selected,
      start_line := some sl, end_line := end_idx,
      lines_read := selected.length, return_code := 0 }

/-! ### The tool dispatcher (`web_agent.OSAgent.execute_tool`)

`execute_tool` wraps its whole `if tool_name == ...` chain in a blanket
`try`/`except Exception` that converts any raised exception into
`{"success": False, "error": str(e), "return_code": -1}`.  Required
arguments are read with `arguments["k"]` (a missing key raises `KeyError`,
reaching that handler); optional ones use `arguments.get` defaults.  Host
effects (spawning, opening, writing, scanning) are oracles that either
return data or carry the text of the exception they raise. -/

/-- The JSON argument dictionary of one tool call: a field is `some v`
when the key is present (with the schema's type) and `none` when absent.
Keys only consumed inside the five structured-output tools are read by
their oracle and are not broken out here. -/
structure ToolArgs where
  command : Option String := none
  filename : Option String := none
  start_line : Option Int := none
  end_line : Option Int := none
  operation : Option String := none
  content : Option String := none
  line_number : Option Int := none
  search : Option String := none
  replace : Option String := none
deriving DecidableEq, Repr

/-- One structured result dictionary from `execute_tool`.  Branch-specific
keys are optional fields, `none` when the branch's dictionary omits the
key (the per-branch `filename`/`operation`/`search`/`replace` echo fields
are flattened away as in the per-operation result structures above). -/
structure ToolResult where
  success : Bool
  output : String := ""
  error : String := ""
  return_code : Int := 0
  pid : Option Int := none
  size : Option ℕ := none
  bytes_added : Option ℕ := none
  line_number : Option Int := none
  replacements : Option ℕ := none
  start_line : Option Int := none
  end_line : Option Int := none
  lines_read : Option ℕ := none
  lines : Option ℕ := none
deriving DecidableEq, Repr

def ExecResult.toTool (r : ExecResult) : ToolResult :=
  { success := r.success, output := r.output, error := r.error,
    return_code := r.return_code }

def ReadResult.toTool (r : ReadResult) : ToolResult :=
  { success := r.success, output := r.output, return_code := r.return_code,
    start_line := r.start_line, end_line := r.end_line,
    lines_read := some r.lines_read, size := some r.size,
    lines := some r.lines }

def InsertResult.toTool (r : InsertResult) : ToolResult :=
  { success := r.success, output := r.output, return_code := r.return_code,
    line_number := some r.line_number }

def ReplaceResult.toTool (r : ReplaceResult) : ToolResult :=
  { success := r.success, output := r.output, error := r.error,
    return_code := r.return_code, replacements := some r.replacements }

/-- The blanket handler's result:
`{"success": False, "error": str(e), "return_code": -1}`. -/
def blanketFailure (msg : String) : ToolResult :=
  { success := false, error := msg, return_code := -1 }

/-- The blanket handler applied to the `KeyError` a missing required
argument raises: `str(KeyError("k"))` renders as the quoted key name. -/
def keyErrorResult (key : String) : ToolResult :=
  blanketFailure ("\x27" ++ key ++ "\x27")

/-- Outcome of `open(filename, 'r')` plus the read on the host:
`FileNotFoundError` is distinguished because the `insert` branch handles
it specially (`lines = []`) while every other branch lets it reach the
blanket handler. -/
inductive FileReadOutcome where
  | ok (content : String)
  | notFound (msg : String)
  | raised (msg : String)
deriving DecidableEq, Repr

/-- The host interface of `execute_tool`: the shell, `subprocess.Popen`
(pid or exception text), file reads, file writes and appends (`none` =
succeeded, `some msg` = raised; directory creation via `os.makedirs` is
part of the write), and the five structured-output tools
(`list_directory`, `get_file_info`, `network_request`, `get_processes`,
`search_files`), whose bodies interleave host iteration (scandir, stat,
HTTP, psutil, glob) with dictionary construction and either return the
dictionary they built or raise. -/
structure Host where
  shell : Shell
  spawn : String → Except String Int
  readFile : String → FileReadOutcome
  writeFile : String → String → Option String
  appendFile : String → String → Option String
  structured : String → ToolArgs → Except String ToolResult

/-- The code-fence stripping of the `edit_file` `write` branch (distinct
from the CLI agent's `cleanContent`): strip, and when the text starts
with a fence, drop the first line and a final line equal to a bare fence
after stripping. -/
def cleanContentWeb (content : String) : String :=
  let cleaned := pyStrip content
  if strStarts "```".toList cleaned.toList then
    let lines0 := cleaned.splitOn "\n"
    let lines1 :=
      if strStarts "```".toList (lines0.headD "").toList then lines0.drop 1
      else lines0
    let lines2 :=
      if !lines1.isEmpty && pyStrip (lines1.getLast?.getD "") == "```" then
        lines1.dropLast
      else lines1
    String.intercalate "\n" lines2
  else cleaned

/-- A structured-output branch: return the dictionary the body built, or
let its exception reach the blanket handler. -/
def structuredRun (host : Host) (tool_name : String) (args : ToolArgs) :
    ToolResult :=
  match host.structured tool_name args with
  | .ok r => r
  | .error msg => blanketFailure msg

/-- `web_agent.OSAgent.execute_tool`: the full dispatch chain.  Every
branch ends in exactly one result dictionary; every exception a branch
can raise (missing key, file error, write error, host error) is captured
by the blanket handler. -/
def execute_tool (host : Host) (tool_name : String) (args : ToolArgs) :
    ToolResult :=
  if tool_name = "execute_command" then
    match args.command with
    | none => keyErrorResult "command"
    | some cmd => ((WebAgent.execute_command host.shell cmd).1).toTool
  else if tool_name = "execute_background_command" then
    match args.command with
    | none => keyErrorResult "command"
    | some cmd =>
      match host.spawn cmd with
      | .ok pid =>
        { success := true,
          output := "Background process started with PID " ++ toString pid,
          pid := some pid, return_code := 0 }
      | .error e =>
        { success := false, error := e, output := "", return_code := -1 }
  else if tool_name = "read_file" then
    match args.filename with
    | none => keyErrorResult "filename"
    | some fn =>
      match host.readFile fn with
      | .ok content => (read_file content args.start_line args.end_line).toTool
      | .notFound msg => blanketFailure msg
      | .raised msg => blanketFailure msg
  else if tool_name = "edit_file" then
    match args.filename with
    | none => keyErrorResult "filename"
    | some fn =>
      match args.operation with
      | none => keyErrorResult "operation"
      | some op =>
        if op = "write" then
          match host.writeFile fn (cleanContentWeb (args.content.getD "")) with
          | none =>
            { success := true,
              output := "File written: " ++ fn ++ " (" ++
                toString (cleanContentWeb (args.content.getD "")).length ++
                " bytes)",
              size := some (cleanContentWeb (args.content.getD "")).length,
              return_code := 0 }
          | some msg => blanketFailure msg
        else if op = "append" then
          match host.appendFile fn (args.content.getD "") with
          | none =>
            { success := true,
              output := "Content appended to: " ++ fn ++ " (" ++
                toString (args.content.getD "").length ++ " bytes added)",
              bytes_added := some (args.content.getD "").length,
              return_code := 0 }
          | some msg => blanketFailure msg
        else if op = "insert" then
          match host.readFile fn with
          | .ok fc =>
            match host.writeFile fn (edit_insert fn (some fc)
                (args.content.getD "") (args.line_number.getD 1)).2 with
            | none => (edit_insert fn (some fc) (args.content.getD "")
                (args.line_number.getD 1)).1.toTool
            | some msg => blanketFailure msg
          | .notFound _ =>
            match host.writeFile fn (edit_insert fn none
                (args.content.getD "") (args.line_number.getD 1)).2 with
            | none => (edit_insert fn none (args.content.getD "")
                (args.line_number.getD 1)).1.toTool
            | some msg => blanketFailure msg
          | .raised msg => blanketFailure msg
        else if op = "replace" then
          match host.readFile fn with
          | .ok fc =>
            if (edit_replace fn fc (args.search.getD "")
                (args.replace.getD "")).1.success then
              match host.writeFile fn (edit_replace fn fc (args.search.getD "")
                  (args.replace.getD "")).2 with
              | none => (edit_replace fn fc (args.search.getD "")
                  (args.replace.getD "")).1.toTool
              | some msg => blanketFailure msg
            else
              (edit_replace fn fc (args.search.getD "")
                (args.replace.getD "")).1.toTool
          | .notFound msg => blanketFailure msg
          | .raised msg => blanketFailure msg
        else
          { success := false, error := "Unknown operation: " ++ op,
            return_code := 1 }
  else if tool_name = "list_directory" then structuredRun host tool_name args
  else if tool_name = "get_file_info" then structuredRun host tool_name args
  else if tool_name = "network_request" then structuredRun host tool_name args
  else if tool_name = "get_processes" then structuredRun host tool_name args
  else if tool_name = "search_files" then structuredRun host tool_name args
  else
    { success := false, error := "Unknown tool: " ++ tool_name,
      return_code := -1 }

/-- The nine tool names `execute_tool` dispatches on. -/
def toolNames : List String :=
  ["execute_command", "execute_background_command", "read_file", "edit_file",
   "list_directory", "get_file_info", "network_request", "get_processes",
   "search_files"]

/-! ### Helper lemmas -/

theorem strStarts_refl : ∀ l : List Char, strStarts l l = true
  | [] => rfl
  | c :: cs => by simp [strStarts, strStarts_refl cs]

/-- A string occurs as a substring of anything that ends with it. -/
theorem strHasSub_append_right : ∀ (p s : List Char), strHasSub s (p ++ s) = true
  | [], [] => rfl
  | [], c :: cs => by simp [strHasSub, strStarts_refl]
  | x :: p, s => by
    cases s with
    | nil => simp [strHasSub, strStarts]
    | cons c cs =>
      simp only [List.cons_append, strHasSub, Bool.or_eq_true]
      exact Or.inr (strHasSub_append_right p (c :: cs))

/-- Concrete stand-in oracles used by witnesses and counterexamples. -/
def shellOk : Shell := fun _ => .completed ⟨"", "", 0⟩

def fsStub : FileSys := fun _ _ => true

def fsFail : FileSys := fun _ _ => false

/-! ### C1: the denylist gate -/

/-- C1 counterexample: the claim asserts that every executor the system
exposes blocks denylisted commands, but `web_agent.OSAgent.execute_command`
has no denylist: the recursive root deletion `rm -rf /` matches the
denylist, yet the web-agent executor spawns a subprocess for it and
reports success. -/
theorem C1_counterexample :
    OsAi.isDangerousCmd "rm -rf /" = true ∧
    (WebAgent.execute_command shellOk "rm -rf /").2 = true ∧
    (WebAgent.execute_command shellOk "rm -rf /").1.success = true := by
  decide

/-- C1 (amended): for every command matching the denylist
(case-insensitively), the CLI agent's executor — inherited by
`web_server.WebOSAgent` — returns a failed result whose error names the
blocked command and spawns no subprocess; the `web_agent` executor
performs no denylist check and spawns a subprocess for every command. -/
theorem C1_blocked_only_in_cli (shell : Shell) (command : String)
    (h : OsAi.isDangerousCmd command = true) :
    OsAi.execute_command shell command =
      ({ success := false, error := "Dangerous command blocked: " ++ command,
         output := "", return_code := -1 }, false) ∧
    hasSubstr command (OsAi.execute_command shell command).1.error = true ∧
    (WebAgent.execute_command shell command).2 = true := by
  refine ⟨by simp [OsAi.execute_command, h], ?_, ?_⟩
  · simp only [OsAi.execute_command, h, if_true, hasSubstr, String.toList,
      String.data_append]
    exact strHasSub_append_right _ _
  · simp only [WebAgent.execute_command, runShell]
    cases shell command <;> rfl

/-- C1 witness: the amended theorem applied to `rm -rf /` with a stub
shell. -/
theorem C1_witness :
    OsAi.isDangerousCmd "rm -rf /" = true ∧
    OsAi.execute_command shellOk "rm -rf /" =
      ({ success := false, error := "Dangerous command blocked: rm -rf /",
         output := "", return_code := -1 }, false) :=
  ⟨by decide, (C1_blocked_only_in_cli shellOk "rm -rf /" (by decide)).1⟩

/-! ### C9: the executor result contract -/

/-- C9: executing any action — a command string or a tool invocation with
any arguments — returns exactly one structured result (both `execute_tool`
and the command executors are total functions: every failure mode of the
`try`/`except` blocks, including a missing required argument's `KeyError`,
a file error, a write error, a host error inside a structured tool, and an
unknown tool or operation name, is captured in the returned dictionary;
nothing escapes).  In the command case success holds iff the exit status
is zero, a timeout yields the distinguishing
`Command timed out after 120 seconds` error with empty output, and a
spawn failure yields the raised exception text; outside the denylist the
CLI executor agrees with the web-agent executor. -/
theorem C9_executor_total_result (shell : Shell) (command : String)
    (host : Host) (tool_name : String) (args : ToolArgs) :
    (∀ r, shell command = ShellOutcome.completed r →
      (WebAgent.execute_command shell command).1 =
        { success := r.returncode = 0, output := r.stdout,
          error := r.stderr, return_code := r.returncode }) ∧
    (shell command = ShellOutcome.timedOut →
      (WebAgent.execute_command shell command).1 =
        { success := false, error := "Command timed out after 120 seconds",
          output := "", return_code := -1 } ∧
      "Command timed out after 120 seconds" ≠ "") ∧
    (∀ msg, shell command = ShellOutcome.raised msg →
      (WebAgent.execute_command shell command).1 =
        { success := false, error := msg, output := "", return_code := -1 }) ∧
    (OsAi.isDangerousCmd command = false →
      OsAi.execute_command shell command = WebAgent.execute_command shell command) ∧
    (tool_name = "execute_command" → ∀ cmd, args.command = some cmd →
      execute_tool host tool_name args =
        ((WebAgent.execute_command host.shell cmd).1).toTool) ∧
    (tool_name = "execute_command" → args.command = none →
      execute_tool host tool_name args = keyErrorResult "command") ∧
    (tool_name = "read_file" → ∀ fn, args.filename = some fn →
      (∀ c, host.readFile fn = FileReadOutcome.ok c →
        execute_tool host tool_name args =
          (read_file c args.start_line args.end_line).toTool) ∧
      (∀ m, host.readFile fn = FileReadOutcome.notFound m ∨
          host.readFile fn = FileReadOutcome.raised m →
        execute_tool host tool_name args = blanketFailure m)) ∧
    (tool_name = "edit_file" → ∀ fn op, args.filename = some fn →
      args.operation = some op → op ≠ "write" → op ≠ "append" →
      op ≠ "insert" → op ≠ "replace" →
      execute_tool host tool_name args =
        { success := false, error := "Unknown operation: " ++ op,
          return_code := 1 }) ∧
    (∀ m, (tool_name = "list_directory" ∨ tool_name = "get_file_info" ∨
        tool_name = "network_request" ∨ tool_name = "get_processes" ∨
        tool_name = "search_files") →
      host.structured tool_name args = Except.error m →
      execute_tool host tool_name args = blanketFailure m) ∧
    (tool_name ∉ toolNames →
      execute_tool host tool_name args =
        { success := false, error := "Unknown tool: " ++ tool_name,
          return_code := -1 }) := by
  refine ⟨?_, ?_, ?_, ?_, ?_, ?_, ?_, ?_, ?_, ?_⟩
  · intro r hr
    simp [WebAgent.execute_command, runShell, hr]
  · intro hr
    refine ⟨by simp [WebAgent.execute_command, runShell, hr], by decide⟩
  · intro msg hr
    simp [WebAgent.execute_command, runShell, hr]
  · intro hd
    simp [OsAi.execute_command, WebAgent.execute_command, hd]
  · intro ht cmd hcmd
    subst ht
    simp [execute_tool, hcmd]
  · intro ht hcmd
    subst ht
    simp [execute_tool, hcmd]
  · intro ht fn hfn
    subst ht
    refine ⟨?_, ?_⟩
    · intro c hrf
      simp [execute_tool, hfn, hrf]
    · intro m hrf
      rcases hrf with hrf | hrf <;> simp [execute_tool, hfn, hrf]
  · intro ht fn op hfn hop h1 h2 h3 h4
    subst ht
    simp [execute_tool, hfn, hop, h1, h2, h3, h4]
  · intro m hmem hstruct
    rcases hmem with ht | ht | ht | ht | ht <;> subst ht <;>
      simp [execute_tool, structuredRun, hstruct]
  · intro hnot
    simp only [toolNames, List.mem_cons, List.not_mem_nil, or_false,
      not_or] at hnot
    obtain ⟨h1, h2, h3, h4, h5, h6, h7, h8, h9⟩ := hnot
    simp [execute_tool, h1, h2, h3, h4, h5, h6, h7, h8, h9]

/-- A stub host for the C9 witness: the shell times out, spawning fails,
every file is missing, writes succeed and structured tools raise. -/
def hostStub : Host :=
  { shell := fun _ => ShellOutcome.timedOut
    spawn := fun _ => Except.error "spawn failed"
    readFile := fun _ => FileReadOutcome.notFound "[Errno 2] No such file or directory"
    writeFile := fun _ _ => none
    appendFile := fun _ _ => none
    structured := fun _ _ => Except.error "boom" }

/-- C9 witness: the contract applied to a timing-out command, an unknown
tool name, a tool call missing its required argument, and a read of a
missing file. -/
theorem C9_witness :
    (WebAgent.execute_command (fun _ => ShellOutcome.timedOut) "sleep 999").1 =
      { success := false, error := "Command timed out after 120 seconds",
        output := "", return_code := -1 } ∧
    execute_tool hostStub "no_such_tool" {} =
      { success := false, error := "Unknown tool: no_such_tool",
        return_code := -1 } ∧
    execute_tool hostStub "execute_command" {} = keyErrorResult "command" ∧
    execute_tool hostStub "read_file" { filename := some "f" } =
      blanketFailure "[Errno 2] No such file or directory" := by
  refine ⟨((C9_executor_total_result (fun _ => ShellOutcome.timedOut) "sleep 999"
      hostStub "no_such_tool" ({} : ToolArgs)).2.1 rfl).1, ?_, ?_, ?_⟩
  · exact (C9_executor_total_result (fun _ => ShellOutcome.timedOut) "sleep 999"
      hostStub "no_such_tool" ({} : ToolArgs)).2.2.2.2.2.2.2.2.2 (by decide)
  · exact (C9_executor_total_result (fun _ => ShellOutcome.timedOut) "sleep 999"
      hostStub "execute_command" ({} : ToolArgs)).2.2.2.2.2.1 rfl rfl
  · exact ((C9_executor_total_result (fun _ => ShellOutcome.timedOut) "sleep 999"
      hostStub "read_file" { filename := some "f" }).2.2.2.2.2.2.1 rfl "f" rfl).2
      "[Errno 2] No such file or directory" (Or.inl rfl)

/-! ### C10: the CLI history bound -/

/-- C10: the CLI conversation history never exceeds 20 messages: from a
bounded history, a model query (which on success appends the user prompt
and the assistant reply and truncates with `conversation_history[-20:]`)
leaves at most 20 messages — on success exactly the most recent 20
entries of the appended history — and clearing resets to the empty
history. -/
theorem C10_history_bounded (history : List Message) (prompt : String)
    (outcome : Option String) (h : history.length ≤ 20) :
    (query_llm_history history prompt outcome).length ≤ 20 ∧
    (∀ r, outcome = some r →
      query_llm_history history prompt outcome =
        (history ++ [Message.mk "user" prompt, Message.mk "assistant" r]).drop
          ((history ++ [Message.mk "user" prompt, Message.mk "assistant" r]).length - 20)) ∧
    clear_conversation.length ≤ 20 := by
  refine ⟨?_, ?_, by decide⟩
  · cases outcome with
    | none => simpa [query_llm_history] using h
    | some r =>
      simp only [query_llm_history]
      split
      · simp only [List.length_drop]
        omega
      · next hle =>
        simp only [gt_iff_lt, not_lt] at hle
        exact hle
  · intro r hr
    subst hr
    simp only [query_llm_history]
    split
    · rfl
    · next hle =>
      have h0 : (history ++ [Message.mk "user" prompt, Message.mk "assistant" r]).length - 20 = 0 := by
        simp only [gt_iff_lt, not_lt] at hle
        omega
      rw [h0, List.drop_zero]

/-- C10 witness: the bound applied to the empty starting history. -/
theorem C10_witness :
    ([] : List Message).length ≤ 20 ∧
    (query_llm_history [] "p" (some "r")).length ≤ 20 :=
  ⟨by decide, (C10_history_bounded [] "p" (some "r") (by decide)).1⟩

/-! ### C4: DONE short-circuits the loop -/

/-- C4: when a turn's decoded actions include a DONE tag, the loop
executes the turn's actions and collects their feedback, then stops
without issuing any further model query — in particular the pending
feedback is computed but never sent. -/
theorem C4_done_short_circuits (shell : Shell) (fs : FileSys)
    (tags : ExtractResult) (h : tags.is_done = true) :
    (processTurn shell fs tags).continuation = Continuation.stop ∧
    (processTurn shell fs tags).feedbacks = turnFeedbacks shell fs tags := by
  simp [processTurn, turnFeedbacks, h]

def doneTurnText : String :=
  "<COMMAND return_output=\"true\">echo hi</COMMAND><DONE>ok</DONE>"

/-- C4 witness: a concrete turn containing both a feedback-requesting
command and a DONE tag executes the command yet stops with its feedback
pending. -/
theorem C4_witness :
    (extract_commands_and_tags doneTurnText).is_done = true ∧
    (processTurn shellOk fsStub (extract_commands_and_tags doneTurnText)).feedbacks ≠ [] ∧
    (processTurn shellOk fsStub (extract_commands_and_tags doneTurnText)).continuation =
      Continuation.stop :=
  ⟨by decide, by decide,
   (C4_done_short_circuits shellOk fsStub _ (by decide)).1⟩

/-! ### C2: feedback prompt selection -/

/-- A shell for the C2 turns: command `A` fails with stderr `E` and exit
status 1; every other command succeeds with stdout `O`. -/
def shellC2 : Shell := fun cmd =>
  if cmd = "A" then .completed ⟨"", "E", 1⟩ else .completed ⟨"O", "", 0⟩

/-- A turn with two feedback-requesting commands, the first of which
fails. -/
def failTurnText : String :=
  "<COMMAND return_output=\"true\">A</COMMAND><COMMAND return_output=\"true\">B</COMMAND>"

/-- A turn with a single succeeding feedback-requesting command, crafted
so that its formatted output coincides with the failing turn's. -/
def okTurnText : String :=
  "<COMMAND return_output=\"true\">A\nError: E\nReturn code: 1\n\n---\n\nCommand: B</COMMAND>"

/-- The continuation decision of a turn, expressed through the collected
feedback strings. -/
theorem processTurn_continuation (shell : Shell) (fs : FileSys)
    (tags : ExtractResult) :
    (processTurn shell fs tags).continuation =
      (if tags.is_done then Continuation.stop
       else if !(turnFeedbacks shell fs tags).isEmpty then
         Continuation.query (feedback_results_prompt (turnFeedbacks shell fs tags))
       else if !tags.ordered_tags.isEmpty then
         Continuation.query operations_completed_prompt
       else Continuation.stop) := rfl

set_option maxRecDepth 8192 in
/-- C2 counterexample: no escalation template keyed on failure exists: a
turn in which an action fails (`failTurnText`, whose command `A` exits
with status 1) and a turn in which every action succeeds (`okTurnText`)
produce byte-identical feedback prompts, so the prompt cannot be selected
from two distinct templates keyed on whether any action in the turn
failed. -/
theorem C2_counterexample :
    (processTurn shellC2 fsStub (extract_commands_and_tags failTurnText)).execution_successful
      = false ∧
    (processTurn shellC2 fsStub (extract_commands_and_tags okTurnText)).execution_successful
      = true ∧
    (processTurn shellC2 fsStub (extract_commands_and_tags failTurnText)).continuation =
      (processTurn shellC2 fsStub (extract_commands_and_tags okTurnText)).continuation := by
  decide

/-- C2 (amended): the feedback prompt is keyed on whether any executed
command requested output feedback, not on failure: the continuation
depends only on the DONE flag, the collected feedback strings and the
presence of tags — it ignores every action's success flag — and uses the
results template whenever feedback was collected, falling back to the
neutral operations-completed template when actions ran but none requested
feedback. -/
theorem C2_prompt_ignores_failure (shell shell' : Shell) (fs fs' : FileSys)
    (tags : ExtractResult)
    (h : turnFeedbacks shell fs tags = turnFeedbacks shell' fs' tags) :
    (processTurn shell fs tags).continuation =
      (processTurn shell' fs' tags).continuation ∧
    (tags.is_done = false → turnFeedbacks shell fs tags ≠ [] →
      (processTurn shell fs tags).continuation =
        Continuation.query (feedback_results_prompt (turnFeedbacks shell fs tags))) ∧
    (tags.is_done = false → turnFeedbacks shell fs tags = [] →
      tags.ordered_tags ≠ [] →
      (processTurn shell fs tags).continuation =
        Continuation.query operations_completed_prompt) := by
  refine ⟨?_, ?_, ?_⟩
  · rw [processTurn_continuation, processTurn_continuation, h]
  · intro hd hf
    rw [processTurn_continuation, hd]
    simp only [Bool.false_eq_true, if_false]
    rw [if_pos]
    simp [List.isEmpty_iff, hf]
  · intro hd hf ht
    rw [processTurn_continuation, hd, hf]
    simp [List.isEmpty_iff, ht]

/-- C2 witness: the amended theorem applied to the failing concrete turn
with two different filesystem oracles (the second failing every write):
the continuation is unchanged. -/
theorem C2_witness :
    turnFeedbacks shellC2 fsStub (extract_commands_and_tags failTurnText) =
      turnFeedbacks shellC2 fsFail (extract_commands_and_tags failTurnText) ∧
    (processTurn shellC2 fsStub (extract_commands_and_tags failTurnText)).continuation =
      (processTurn shellC2 fsFail (extract_commands_and_tags failTurnText)).continuation :=
  ⟨by decide,
   (C2_prompt_ignores_failure shellC2 shellC2 fsStub fsFail _ (by decide)).1⟩

/-! ### C5: context compression -/

def h6 : List Message :=
  [⟨"user", "u0"⟩, ⟨"assistant", "a1"⟩, ⟨"user", "u2"⟩,
   ⟨"assistant", "a3"⟩, ⟨"user", "u4"⟩, ⟨"assistant", "a5"⟩]

/-- C5 counterexample: on a 6-message history compression triggers and
completes (the summarization query succeeds), yet the stored message
count is unchanged — 6 before, 6 after — not strictly smaller. -/
theorem C5_counterexample :
    h6.length = 6 ∧
    (summarize_context (fun _ => some "S") h6).map List.length = some 6 := by
  decide

/-- C5 (amended): whenever compression completes, the new history has
exactly 6 messages — the first message verbatim, one synthetic system
summary message, and the most recent 4 messages verbatim — so the count
never grows, and strictly shrinks exactly when more than 6 messages were
stored. -/
theorem C5_compression_shape (llm : String → Option String)
    (h newh : List Message) (hc : summarize_context llm h = some newh) :
    newh.length = 6 ∧ 6 ≤ h.length ∧ newh.length ≤ h.length ∧
    (6 < h.length → newh.length < h.length) ∧
    newh.head? = h.head? ∧
    newh.drop 2 = h.drop (h.length - 4) ∧
    (∃ s, newh.get? 1 =
      some ⟨"system", "[Previous conversation summary: " ++ s ++ "]"⟩) := by
  cases h with
  | nil => simp [summarize_context] at hc
  | cons first tail =>
    simp only [summarize_context] at hc
    split at hc
    · exact absurd hc (by simp)
    · next hlen =>
      have h6le : 6 ≤ (first :: tail).length := by omega
      split at hc
      · exact absurd hc (by simp)
      · split at hc
        · next summary hllm =>
          injection hc with hnew
          subst hnew
          have h6 : 6 ≤ tail.length + 1 := by simpa using h6le
          refine ⟨?_, h6le, ?_, ?_, rfl, rfl, ⟨summary, rfl⟩⟩
          · simp only [List.length_cons, List.length_drop]
            omega
          · simp only [List.length_cons, List.length_drop]
            omega
          · intro hlt
            simp only [List.length_cons, List.length_drop] at hlt ⊢
            omega
        · exact absurd hc (by simp)

def h7 : List Message :=
  [⟨"user", "u0"⟩, ⟨"assistant", "a1"⟩, ⟨"user", "u2"⟩,
   ⟨"assistant", "a3"⟩, ⟨"user", "u4"⟩, ⟨"assistant", "a5"⟩, ⟨"user", "u6"⟩]

def h7compressed : List Message :=
  [⟨"user", "u0"⟩, ⟨"system", "[Previous conversation summary: S]"⟩,
   ⟨"assistant", "a3"⟩, ⟨"user", "u4"⟩, ⟨"assistant", "a5"⟩, ⟨"user", "u6"⟩]

/-- C5 witness: the amended theorem applied to a concrete 7-message
history: compression yields 6 messages, strictly fewer than before. -/
theorem C5_witness :
    summarize_context (fun _ => some "S") h7 = some h7compressed ∧
    h7compressed.length = 6 ∧ h7compressed.length < h7.length := by
  have hc : summarize_context (fun _ => some "S") h7 = some h7compressed := by decide
  have hall := C5_compression_shape (fun _ => some "S") h7 h7compressed hc
  exact ⟨hc, hall.1, hall.2.2.2.1 (by decide)⟩

/-! ### C6: search-replace -/

/-- The greedy count is zero exactly when the (nonempty) needle never
occurs, for sufficient fuel. -/
theorem countScan_eq_zero_iff (sh : Char) (st : List Char) :
    ∀ (fuel : ℕ) (l : List Char), l.length ≤ fuel →
      ((countScan sh st fuel l = 0) ↔ strHasSub (sh :: st) l = false) := by
  intro fuel
  induction fuel with
  | zero =>
    intro l hl
    cases l with
    | nil => simp [countScan, strHasSub]
    | cons c cs => simp at hl
  | succ fuel ih =>
    intro l hl
    cases l with
    | nil => simp [countScan, strHasSub]
    | cons c cs =>
      cases hs : strStarts (sh :: st) (c :: cs) with
      | true =>
        simp only [countScan, strHasSub, hs, if_true, Bool.true_or,
          Bool.true_eq_false, iff_false]
        omega
      | false =>
        simp only [countScan, strHasSub, hs, if_false, Bool.false_or]
        exact ih cs (by simp at hl; omega)

/-- Python `count` is zero exactly when the needle does not occur, for a
nonempty needle. -/
theorem pyCount_eq_zero_iff (content search : String) (hs : search ≠ "") :
    pyCount content search = 0 ↔ hasSubstr search content = false := by
  obtain ⟨data⟩ := search
  cases data with
  | nil => exact absurd (by decide) hs
  | cons c cs =>
    show countScan c cs content.toList.length content.toList = 0 ↔
      strHasSub (c :: cs) content.toList = false
    exact countScan_eq_zero_iff c cs content.toList.length content.toList le_rfl

/-- C6 counterexample: a replacement that reintroduces the search text:
replacing `x` by `x` in the file `x` succeeds with count 1, yet the new
content still contains the search text, so the claimed "zero remaining
occurrences" fails. -/
theorem C6_counterexample :
    (edit_replace "f" "x" "x" "x").1.success = true ∧
    (edit_replace "f" "x" "x" "x").1.replacements = 1 ∧
    (edit_replace "f" "x" "x" "x").2 = "x" ∧
    hasSubstr "x" (edit_replace "f" "x" "x" "x").2 = true := by
  decide

/-- C6 (amended): search-replace fails exactly when the file contains zero
occurrences of the search text (leaving the file unchanged, with an error
naming the file), and on success reports a replacement count equal to the
number of leftmost non-overlapping occurrences, rewriting the file with
all of them replaced — but the new content may still contain the search
text when the replacement reintroduces it. -/
theorem C6_replace_success_iff_match (filename content search repl : String) :
    ((edit_replace filename content search repl).1.success = true ↔
      0 < pyCount content search) ∧
    (pyCount content search = 0 →
      (edit_replace filename content search repl).1.success = false ∧
      (edit_replace filename content search repl).2 = content ∧
      hasSubstr filename (edit_replace filename content search repl).1.error = true) ∧
    ((edit_replace filename content search repl).1.success = true →
      (edit_replace filename content search repl).1.replacements =
        pyCount content search ∧
      (edit_replace filename content search repl).2 =
        pyReplace content search repl) ∧
    (search ≠ "" →
      (pyCount content search = 0 ↔ hasSubstr search content = false)) := by
  by_cases hc : pyCount content search = 0
  · refine ⟨?_, ?_, ?_, fun hs => pyCount_eq_zero_iff content search hs⟩
    · simp [edit_replace, hc]
    · intro _
      refine ⟨by simp [edit_replace, hc], by simp [edit_replace, hc], ?_⟩
      simp only [edit_replace, hc, if_true, hasSubstr, String.toList,
        String.data_append]
      exact strHasSub_append_right _ _
    · intro hsucc
      exact absurd hsucc (by simp [edit_replace, hc])
  · refine ⟨?_, fun h0 => absurd h0 hc, ?_,
      fun hs => pyCount_eq_zero_iff content search hs⟩
    · simp [edit_replace, hc]
      omega
    · intro _
      exact ⟨by simp [edit_replace, hc], by simp [edit_replace, hc]⟩

/-- C6 witness: the amended theorem applied to concrete inputs: two
occurrences replaced and reported, and the zero-count bridge at a
non-occurring needle. -/
theorem C6_witness :
    (edit_replace "f" "ab ab" "ab" "c").1.replacements = 2 ∧
    (edit_replace "f" "ab ab" "ab" "c").2 = "c c" ∧
    (pyCount "zzz" "ab" = 0 ↔ hasSubstr "ab" "zzz" = false) := by
  have h := C6_replace_success_iff_match "f" "ab ab" "ab" "c"
  exact ⟨((h.2.2.1 (by decide)).1).trans (by decide),
    ((h.2.2.1 (by decide)).2).trans (by decide),
    (C6_replace_success_iff_match "f" "zzz" "ab" "c").2.2.2 (by decide)⟩

/-! ### C7: line insertion -/

/-- C7: insert always succeeds; the content is placed immediately before
the given 1-indexed line when that line exists (or is one past the end);
line numbers below 1 clamp to the file start; line numbers beyond the
file length clamp to an append at the end. -/
theorem C7_insert_before_line (filename : String) (fileContent : Option String)
    (content : String) (line_number : Int) :
    (edit_insert filename fileContent content line_number).1.success = true ∧
    (1 ≤ line_number → line_number ≤ (fileLines fileContent).length + 1 →
      (edit_insert filename fileContent content line_number).2 =
        String.join ((fileLines fileContent).take (line_number - 1).toNat ++
          ensureNewline content :: (fileLines fileContent).drop (line_number - 1).toNat)) ∧
    (line_number < 1 →
      (edit_insert filename fileContent content line_number).2 =
        String.join (ensureNewline content :: fileLines fileContent)) ∧
    (((fileLines fileContent).length : Int) < line_number →
      (edit_insert filename fileContent content line_number).2 =
        String.join (fileLines fileContent ++ [ensureNewline content])) := by
  refine ⟨rfl, ?_, ?_, ?_⟩
  · intro h1 h2
    have hidx : (max 0 (min (line_number - 1)
        ((fileLines fileContent).length : Int))).toNat = (line_number - 1).toNat := by
      omega
    simp only [edit_insert, hidx]
  · intro h1
    have hidx : (max 0 (min (line_number - 1)
        ((fileLines fileContent).length : Int))).toNat = 0 := by
      omega
    simp only [edit_insert, hidx, List.take_zero, List.drop_zero, List.nil_append]
  · intro h1
    have hidx : (max 0 (min (line_number - 1)
        ((fileLines fileContent).length : Int))).toNat =
        (fileLines fileContent).length := by
      omega
    simp only [edit_insert, hidx, List.take_length, List.drop_length]

/-- C7 witness: insert at line 1 on an empty file produces a file whose
first line is the inserted content; insert far beyond the end appends. -/
theorem C7_witness :
    (edit_insert "f" (some "") "hi" 1).2 = "hi\n" ∧
    (pyReadlines (edit_insert "f" (some "") "hi" 1).2).head? = some "hi\n" ∧
    (edit_insert "f" (some "a\n") "hi" 99).2 = "a\nhi\n" := by
  have h1 := (C7_insert_before_line "f" (some "") "hi" 1).2.1
    (by decide) (by decide)
  have h2 := (C7_insert_before_line "f" (some "a\n") "hi" 99).2.2.2 (by decide)
  have hA : (edit_insert "f" (some "") "hi" 1).2 = "hi\n" := by
    rw [h1]; decide
  have hB : (edit_insert "f" (some "a\n") "hi" 99).2 = "a\nhi\n" := by
    rw [h2]; decide
  refine ⟨hA, ?_, hB⟩
  rw [hA]
  decide

/-! ### C8: ranged reads -/

/-- A file of 10^9 characters, far beyond any plausible read cap. -/
def bigContent : String := ⟨List.replicate 1000000000 'a'⟩

/-- C8 counterexample: the whole-file read path has no size cap: even a
10^9-character file is read back in full — output equal to the entire
content — with no truncation notice or partial content. -/
theorem C8_counterexample :
    (read_file bigContent none none).success = true ∧
    (read_file bigContent none none).output = bigContent :=
  ⟨rfl, rfl⟩

/-- C8 (amended): with a line range, a start index below 1 clamps to 1,
and an end index at or beyond the file length clamps to the file length
(reading to the end of the file); with the range omitted, the whole file
is returned unconditionally — the code has no size cap. -/
theorem C8_read_clamps (content : String) (sl el : Int) :
    (sl ≤ 1 →
      (read_file content (some sl) (some el)).output =
        (read_file content (some 1) (some el)).output) ∧
    (((pyReadlines content).length : Int) ≤ el →
      (read_file content (some sl) (some el)).output =
        (read_file content (some sl) none).output) ∧
    (read_file content none none).output = content := by
  refine ⟨?_, ?_, rfl⟩
  · intro h1
    have hidx : (max 0 (sl - 1)).toNat = (max 0 ((1 : Int) - 1)).toNat := by
      omega
    simp only [read_file, hidx]
  · intro h1
    have hmin : min ((pyReadlines content).length : Int) el =
        ((pyReadlines content).length : Int) := by
      omega
    have heff : ¬(((pyReadlines content).length : Int) < 0) := by omega
    simp only [read_file, pySlice, hmin, heff, if_false, Int.toNat_natCast,
      List.take_length]

/-- C8 witness: the clamps applied to a concrete 3-line file with
out-of-range indices on both ends. -/
theorem C8_witness :
    (read_file "a\nb\nc\n" (some (-5)) (some 2)).output = "a\nb\n" ∧
    (read_file "a\nb\nc\n" (some 2) (some 99)).output = "b\nc\n" := by
  have h1 := (C8_read_clamps "a\nb\nc\n" (-5) 2).1 (by decide)
  have h2 := (C8_read_clamps "a\nb\nc\n" 2 99).2.1 (by decide)
  exact ⟨h1.trans (by decide), h2.trans (by decide)⟩

/-! ### C3: decoder order and count -/

/-- The legacy pass appends at most one tag per match. -/
theorem addLegacyTags_length_le (ms : List (ℕ × ℕ × List Char)) :
    ∀ acc : List Tag, (addLegacyTags acc ms).length ≤ acc.length + ms.length := by
  induction ms with
  | nil => intro acc; simp [addLegacyTags]
  | cons m rest ih =>
    intro acc
    obtain ⟨s, e, raw⟩ := m
    simp only [addLegacyTags, List.length_cons]
    split
    · exact le_trans (ih acc) (by omega)
    · split
      · exact le_trans (ih acc) (by omega)
      · refine le_trans (ih _) ?_
        simp only [List.length_append, List.length_cons, List.length_nil]
        omega

/-- A `filterMap` whose function returns `some` on every element of the
list preserves its length. -/
theorem length_filterMap_of_forall_isSome {α β : Type _} (f : α → Option β) :
    ∀ l : List α, (∀ a ∈ l, (f a).isSome) → (l.filterMap f).length = l.length := by
  intro l
  induction l with
  | nil => intro _; rfl
  | cons a t ih =>
    intro h
    obtain ⟨b, hb⟩ := Option.isSome_iff_exists.mp (h a (List.mem_cons_self a t))
    rw [List.filterMap_cons, hb]
    simp only [List.length_cons]
    rw [ih fun x hx => h x (List.mem_cons_of_mem a hx)]

/-- The command tags the legacy matches would contribute if none were
dropped: one tag per match, carrying its position and stripped command. -/
def legacyTagsOf (ms : List (ℕ × ℕ × List Char)) : List Tag :=
  ms.map fun m => ⟨m.1, .command true (pyStrip ⟨m.2.2⟩)⟩

/-- When no legacy match is suppressed — each match's stripped command is
nonempty and the `alreadyCaptured` guard finds nothing among the tags
collected before it (the initial accumulator plus the tags of all earlier
legacy matches) — the legacy pass keeps every match. -/
theorem addLegacyTags_keeps_all :
    ∀ (ms : List (ℕ × ℕ × List Char)) (acc : List Tag),
      (∀ i : Fin ms.length,
        (pyStrip ⟨(ms.get i).2.2⟩).isEmpty = false ∧
        alreadyCaptured (acc ++ legacyTagsOf (ms.take i.1)) (ms.get i).1
          (pyStrip ⟨(ms.get i).2.2⟩) = false) →
      addLegacyTags acc ms = acc ++ legacyTagsOf ms := by
  intro ms
  induction ms with
  | nil =>
    intro acc _
    simp [addLegacyTags, legacyTagsOf]
  | cons m rest ih =>
    intro acc h
    obtain ⟨s, e, raw⟩ := m
    have h0 := h ⟨0, Nat.succ_pos rest.length⟩
    have hne : (pyStrip ⟨raw⟩).isEmpty = false := h0.1
    have hcap : alreadyCaptured acc s (pyStrip ⟨raw⟩) = false := by
      have := h0.2
      simp only [List.take_zero, legacyTagsOf, List.map_nil,
        List.append_nil] at this
      exact this
    rw [show addLegacyTags acc ((s, e, raw) :: rest) =
        addLegacyTags (acc ++ [⟨s, .command true (pyStrip ⟨raw⟩)⟩]) rest by
      simp [addLegacyTags, hne, hcap]]
    have hrest : ∀ i : Fin rest.length,
        (pyStrip ⟨(rest.get i).2.2⟩).isEmpty = false ∧
        alreadyCaptured ((acc ++ [⟨s, .command true (pyStrip ⟨raw⟩)⟩]) ++
            legacyTagsOf (rest.take i.1)) (rest.get i).1
          (pyStrip ⟨(rest.get i).2.2⟩) = false := by
      intro i
      have hi := h ⟨i.1 + 1, Nat.succ_lt_succ i.2⟩
      refine ⟨hi.1, ?_⟩
      have h2 := hi.2
      simp only [List.take_succ_cons, legacyTagsOf, List.map_cons] at h2 ⊢
      simpa [List.append_assoc] using h2
    rw [ih _ hrest]
    simp [legacyTagsOf]

set_option maxRecDepth 8192 in
/-- C3 counterexample: the text `<COMMAND>ls</COMMAND> <COMMAND>ls</COMMAND>`
contains exactly two inline action markers (two legacy commands; no
parameterized or write-file markers), yet the decoder returns a single
action: the second marker starts 22 characters after the first and its
command is a substring of the first's, so the proximity heuristic
suppresses it. -/
theorem C3_counterexample :
    (pyFinditer matchParamCmd
      "<COMMAND>ls</COMMAND> <COMMAND>ls</COMMAND>".toList).length = 0 ∧
    (pyFinditer matchLegacyCmd
      "<COMMAND>ls</COMMAND> <COMMAND>ls</COMMAND>".toList).length = 2 ∧
    (pyFinditer matchWritefile
      "<COMMAND>ls</COMMAND> <COMMAND>ls</COMMAND>".toList).length = 0 ∧
    (extract_commands_and_tags
      "<COMMAND>ls</COMMAND> <COMMAND>ls</COMMAND>").ordered_tags.length = 1 := by
  decide

/-- C3 (amended): the decoder emits its actions sorted by document
position and emits at most one action per marker — never more than the
total marker count.  When no legacy command marker is suppressed — each
legacy marker's stripped command is nonempty and the 100-character
proximity/substring guard finds nothing among the tags collected before
it — and every parameterized-command payload and write-file filename is
nonempty after stripping, the action count equals the marker count
exactly; but a nonempty legacy command marker is dropped whenever an
already-collected command starts at most 100 characters before it and
contains its text as a substring, so exact count preservation fails in
general. -/
theorem C3_decoder_order_and_count (text : String) :
    List.Sorted tagLE (extract_commands_and_tags text).ordered_tags ∧
    (extract_commands_and_tags text).ordered_tags.length ≤
      (pyFinditer matchParamCmd text.toList).length +
      (pyFinditer matchLegacyCmd text.toList).length +
      (pyFinditer matchWritefile text.toList).length ∧
    ((∀ i : Fin (pyFinditer matchLegacyCmd text.toList).length,
        (pyStrip ⟨((pyFinditer matchLegacyCmd text.toList).get i).2.2⟩).isEmpty
          = false ∧
        alreadyCaptured
          (paramTags (pyFinditer matchParamCmd text.toList) ++
            legacyTagsOf ((pyFinditer matchLegacyCmd text.toList).take i.1))
          ((pyFinditer matchLegacyCmd text.toList).get i).1
          (pyStrip ⟨((pyFinditer matchLegacyCmd text.toList).get i).2.2⟩)
          = false) →
      (∀ m ∈ pyFinditer matchParamCmd text.toList,
        (pyStrip ⟨m.2.2.2⟩).isEmpty = false) →
      (∀ m ∈ pyFinditer matchWritefile text.toList,
        (pyStrip ⟨m.2.2.1⟩).isEmpty = false) →
      (extract_commands_and_tags text).ordered_tags.length =
        (pyFinditer matchParamCmd text.toList).length +
        (pyFinditer matchLegacyCmd text.toList).length +
        (pyFinditer matchWritefile text.toList).length) := by
  have hord : (extract_commands_and_tags text).ordered_tags =
      List.insertionSort tagLE
        (addLegacyTags (paramTags (pyFinditer matchParamCmd text.toList))
            (pyFinditer matchLegacyCmd text.toList) ++
          writefileTags (pyFinditer matchWritefile text.toList)) := rfl
  refine ⟨?_, ?_, ?_⟩
  · rw [hord]
    exact List.sorted_insertionSort tagLE _
  · rw [hord, (List.perm_insertionSort tagLE _).length_eq, List.length_append]
    have h1 := addLegacyTags_length_le (pyFinditer matchLegacyCmd text.toList)
      (paramTags (pyFinditer matchParamCmd text.toList))
    have h2 : (paramTags (pyFinditer matchParamCmd text.toList)).length ≤
        (pyFinditer matchParamCmd text.toList).length :=
      List.length_filterMap_le _ _
    have h3 : (writefileTags (pyFinditer matchWritefile text.toList)).length ≤
        (pyFinditer matchWritefile text.toList).length :=
      List.length_filterMap_le _ _
    omega
  · intro hleg hp hw
    rw [hord, (List.perm_insertionSort tagLE _).length_eq, List.length_append,
      addLegacyTags_keeps_all _ _ hleg, List.length_append]
    have h2 : (paramTags (pyFinditer matchParamCmd text.toList)).length =
        (pyFinditer matchParamCmd text.toList).length := by
      simp only [paramTags]
      apply length_filterMap_of_forall_isSome
      intro m hm
      obtain ⟨s, e, ro, raw⟩ := m
      have hne := hp _ hm
      simp only at hne
      simp [hne]
    have h3 : (writefileTags (pyFinditer matchWritefile text.toList)).length =
        (pyFinditer matchWritefile text.toList).length := by
      simp only [writefileTags]
      apply length_filterMap_of_forall_isSome
      intro m hm
      obtain ⟨s, e, fn, content⟩ := m
      have hne := hw _ hm
      simp only at hne
      simp [hne]
    have h4 : (legacyTagsOf (pyFinditer matchLegacyCmd text.toList)).length =
        (pyFinditer matchLegacyCmd text.toList).length := by
      simp [legacyTagsOf]
    omega

/-- A parameterized command, an unsuppressed legacy command (`yy` is not a
substring of `x`, so the 100-character guard finds nothing) and a
write-file marker. -/
def mixedMarkersText : String :=
  "<COMMAND return_output=\"true\">x</COMMAND><COMMAND>yy</COMMAND><WRITEFILE filename=\"f\">w</WRITEFILE>"

set_option maxRecDepth 8192 in
/-- C3 witness: the amended theorem applied to a text whose legacy marker
is present but not suppressed: all three markers come out. -/
theorem C3_witness :
    (extract_commands_and_tags mixedMarkersText).ordered_tags.length =
      (pyFinditer matchParamCmd mixedMarkersText.toList).length +
      (pyFinditer matchLegacyCmd mixedMarkersText.toList).length +
      (pyFinditer matchWritefile mixedMarkersText.toList).length ∧
    (pyFinditer matchLegacyCmd mixedMarkersText.toList).length = 1 ∧
    (extract_commands_and_tags mixedMarkersText).ordered_tags.length = 3 :=
  ⟨(C3_decoder_order_and_count mixedMarkersText).2.2
      (by decide) (by decide) (by decide),
   by decide, by decide⟩

end AiOS
